import Mathlib

/-!
Verification of the category-filter logic of the portfolio site
(`src/components/Portfolio.tsx`).

The component holds a hardcoded list of six projects, a list of three
category controls, and a single piece of state `filter` initialised to
`"all"` (`useState('all')`, line 11).  The one behavioural line of code
is line 76:

  `const filteredProjects = filter === 'all' ? projects
     : projects.filter(project => project.category === filter)`

We embed the project record, the literal data, the filtering expression,
and the click handler `() => setFilter(category.id)` (line 125) as a step
function on the selected-category state.
-/

/-- A project record, as in the `projects` literal of `Portfolio.tsx`
(lines 13–68): `id`, `title`, `category`, `description`, `image`, `tags`,
`color`. -/
structure Item where
  id : Nat
  title : String
  category : String
  description : String
  image : String
  tags : List String
  color : String
deriving Repr, DecidableEq

/-- A category control, as in the `categories` literal of `Portfolio.tsx`
(lines 70–74): `id` and display `name`. -/
structure Category where
  id : String
  name : String
deriving Repr, DecidableEq

/-- The hardcoded six-project list (`Portfolio.tsx` lines 13–68). -/
def projects : List Item :=
  [ { id := 1, title := "电商应用重设计", category := "mobile",
      description := "为某知名电商平台设计的移动端应用界面，提升了用户购物体验和转化率。",
      image := "/api/placeholder/400/300",
      tags := ["UI/UX", "Mobile", "E-commerce"],
      color := "from-blue-500 to-purple-600" },
    { id := 2, title := "金融科技仪表板", category := "web",
      description := "为金融科技公司设计的数据可视化仪表板，让复杂数据一目了然。",
      image := "/api/placeholder/400/300",
      tags := ["Dashboard", "Fintech", "Data Viz"],
      color := "from-green-500 to-blue-600" },
    { id := 3, title := "健康管理应用", category := "mobile",
      description := "专注于用户健康管理的移动应用，简洁的界面设计提升了用户粘性。",
      image := "/api/placeholder/400/300",
      tags := ["Healthcare", "Mobile", "Wellness"],
      color := "from-pink-500 to-red-600" },
    { id := 4, title := "企业官网重构", category := "web",
      description := "为科技企业设计的响应式官网，现代化的设计语言提升了品牌形象。",
      image := "/api/placeholder/400/300",
      tags := ["Website", "Corporate", "Responsive"],
      color := "from-purple-500 to-indigo-600" },
    { id := 5, title := "社交媒体工具", category := "web",
      description := "为内容创作者设计的社交媒体管理工具，直观的界面提高了工作效率。",
      image := "/api/placeholder/400/300",
      tags := ["Social Media", "Tools", "Productivity"],
      color := "from-orange-500 to-pink-600" },
    { id := 6, title := "教育平台界面", category := "mobile",
      description := "在线教育平台的移动端设计，友好的界面让学习变得更加轻松愉快。",
      image := "/api/placeholder/400/300",
      tags := ["Education", "Mobile", "Learning"],
      color := "from-teal-500 to-green-600" } ]

/-- The category control set (`Portfolio.tsx` lines 70–74). -/
def categories : List Category :=
  [ { id := "all", name := "全部" },
    { id := "web", name := "网页设计" },
    { id := "mobile", name := "移动应用" } ]

/-- The filtering expression of `Portfolio.tsx` line 76:
`filter === 'all' ? projects : projects.filter(project => project.category === filter)`. -/
def filteredProjects (items : List Item) (filter : String) : List Item :=
  if filter == "all" then items
  else items.filter (fun project => project.category == filter)

/-- Initial value of the `filter` state: `useState('all')`
(`Portfolio.tsx` line 11). -/
def initialFilter : String := "all"

/-- The click handler of a category button, `() => setFilter(category.id)`
(`Portfolio.tsx` line 125): the clicked category id replaces the current
`filter` state unconditionally. -/
def selectCategory (_current : String) (clicked : String) : String :=
  clicked

/-- Running a finite sequence of category-selection events from a given
`filter` state. -/
def runSelections (start : String) (events : List String) : String :=
  events.foldl selectCategory start

/-- The rendered project grid is `filteredProjects` of the hardcoded list
at the current `filter` state (`Portfolio.tsx` lines 76 and 146). -/
def renderedProjects (state : String) : List Item :=
  filteredProjects projects state

/-- Small concrete items used in witnesses and counterexamples. -/
def itemA : Item :=
  { id := 1, title := "a", category := "mobile", description := "",
    image := "", tags := [], color := "" }

def itemB : Item :=
  { id := 2, title := "b", category := "web", description := "",
    image := "", tags := [], color := "" }

/-- C1 (amended): for every item list L and category string c, the output
of the filter is a sub-sequence of L preserving the original relative
order, with no duplication, and omitting no element of L whose category
equals c; and whenever c is not the sentinel "all", every element of the
output has category exactly c.  (As originally stated, with c ranging
over every category string including "all", the first conjunct fails: see
the counterexample.) -/
theorem C1_filter_subsequence (L : List Item) (c : String) :
    (c ≠ "all" → ∀ p ∈ filteredProjects L c, p.category = c) ∧
    List.Sublist (filteredProjects L c) L ∧
    (∀ p ∈ L, p.category = c → p ∈ filteredProjects L c) := by
  by_cases hc : c = "all"
  · subst hc
    refine ⟨fun h => absurd rfl h, ?_, ?_⟩
    · simp [filteredProjects]
    · intro p hp _
      simpa [filteredProjects] using hp
  · have hb : (c == "all") = false := by simp [hc]
    refine ⟨?_, ?_, ?_⟩
    · intro _ p hp
      have hmem : p ∈ L ∧ p.category = c := by
        simpa [filteredProjects, hb] using hp
      exact hmem.2
    · have : filteredProjects L c = L.filter (fun p => p.category == c) := by
        simp [filteredProjects, hb]
      rw [this]
      exact List.filter_sublist L
    · intro p hp hcat
      have : filteredProjects L c = L.filter (fun p => p.category == c) := by
        simp [filteredProjects, hb]
      rw [this]
      exact List.mem_filter.mpr ⟨hp, by simp [hcat]⟩

/-- C1 counterexample: with the sentinel category string "all", the
output keeps elements whose category is not "all", refuting the claim
over every category string. -/
theorem C1_counterexample :
    ¬ (∀ p ∈ filteredProjects [itemA] "all", p.category = "all") := by
  intro h
  have hm : itemA ∈ filteredProjects [itemA] "all" := by
    simp [filteredProjects]
  exact absurd (h itemA hm) (by decide)

/-- C1 witness: applying the amended theorem at a concrete input. -/
theorem C1_filter_subsequence_witness :
    itemA ∈ filteredProjects [itemA, itemB] "mobile" :=
  (C1_filter_subsequence [itemA, itemB] "mobile").2.2 itemA (by simp) rfl

/-- C2: filtering with the sentinel "all" is the identity: same elements,
same order. -/
theorem C2_all_identity (L : List Item) : filteredProjects L "all" = L := by
  simp [filteredProjects]

/-- C3 (amended): for every category string c other than the sentinel
"all" that is not the category of any element of L, the filter returns
the empty sequence as an ordinary result; no validation of c is
performed.  (As originally stated the claim also ranges over c = "all",
which is not the category of any element yet returns the whole list: see
the counterexample.) -/
theorem C3_absent_category_empty (L : List Item) (c : String)
    (hc : c ≠ "all") (h : ∀ p ∈ L, p.category ≠ c) :
    filteredProjects L c = [] := by
  have hb : (c == "all") = false := by simp [hc]
  have hrw : filteredProjects L c = L.filter (fun p => p.category == c) := by
    simp [filteredProjects, hb]
  rw [hrw]
  exact List.filter_eq_nil_iff.mpr (fun p hp => by simpa using h p hp)

/-- C3 counterexample: "all" is a category string that is not the
category of any element of the list [itemA], yet filtering with it
returns the full list, not the empty sequence. -/
theorem C3_counterexample :
    itemA.category ≠ "all" ∧ filteredProjects [itemA] "all" = [itemA] := by
  refine ⟨by decide, ?_⟩
  simp [filteredProjects]

/-- C3 witness: a concrete absent category yields the empty list. -/
theorem C3_absent_category_empty_witness :
    filteredProjects [itemA] "desktop" = [] :=
  C3_absent_category_empty [itemA] "desktop" (by decide) (by decide)

/-- C4: totality — for every well-typed input pair the filter produces a
well-defined result, never larger than the input; an empty output is an
ordinary value of the output type, not an error. -/
theorem C4_total (L : List Item) (c : String) :
    ∃ r : List Item, filteredProjects L c = r ∧ r.length ≤ L.length := by
  refine ⟨filteredProjects L c, rfl, ?_⟩
  unfold filteredProjects
  split
  · exact le_refl _
  · exact List.length_filter_le _ _

/-- C5: filtering is idempotent. -/
theorem C5_idempotent (L : List Item) (c : String) :
    filteredProjects (filteredProjects L c) c = filteredProjects L c := by
  by_cases hc : c = "all"
  · subst hc
    simp [filteredProjects]
  · have hb : (c == "all") = false := by simp [hc]
    have hrw : ∀ M : List Item,
        filteredProjects M c = M.filter (fun p => p.category == c) := by
      intro M
      simp [filteredProjects, hb]
    rw [hrw, hrw]
    exact List.filter_eq_self.mpr (fun p hp => (List.mem_filter.mp hp).2)

/-- C6: the filter is a pure function of its two inputs: equal item lists
and equal selected categories give equal outputs, and the embedding is
functional, leaving the input list unchanged. -/
theorem C6_deterministic (L1 L2 : List Item) (c1 c2 : String)
    (hL : L1 = L2) (hc : c1 = c2) :
    filteredProjects L1 c1 = filteredProjects L2 c2 := by
  rw [hL, hc]

/-- C6 witness at a concrete input. -/
theorem C6_deterministic_witness :
    filteredProjects [itemA] "web" = filteredProjects [itemA] "web" :=
  C6_deterministic [itemA] [itemA] "web" "web" rfl rfl

/-- C7: after any finite sequence of selection events whose most recent
event selects category c, starting from any state, the rendered output
equals the filter of the hardcoded project list at c: each selection
synchronously replaces the prior filtered view. -/
theorem C7_last_selection_wins (s : String) (events : List String) (c : String) :
    renderedProjects (runSelections s (events ++ [c])) =
      filteredProjects projects c := by
  simp [runSelections, renderedProjects, List.foldl_append, selectCategory]

/-- C8: at startup, before any selection event, the selector state is the
sentinel "all", so the initially rendered output is the full hardcoded
project list. -/
theorem C8_initial_state :
    initialFilter = "all" ∧ renderedProjects initialFilter = projects :=
  ⟨rfl, by simp [renderedProjects, initialFilter, filteredProjects]⟩

/-- C9: the category controls are exactly "all", "web", "mobile";
"mobile" selects the projects with ids 1, 3, 6 and "web" those with ids
2, 4, 5; every non-"all" control yields a non-empty output; and the two
non-"all" categories cover every project exactly once. -/
theorem C9_controls_cover_projects :
    (categories.map Category.id) = ["all", "web", "mobile"] ∧
    (filteredProjects projects "mobile").map Item.id = [1, 3, 6] ∧
    (filteredProjects projects "web").map Item.id = [2, 4, 5] ∧
    (∀ cat ∈ categories, cat.id ≠ "all" → filteredProjects projects cat.id ≠ []) ∧
    (∀ p ∈ projects,
      (p.category = "mobile" ∧ p.category ≠ "web") ∨
      (p.category = "web" ∧ p.category ≠ "mobile")) := by
  decide

/-- C10: category matching is exact, case-sensitive string equality: the
hardcoded list contains an element of category "mobile", yet filtering
with "Mobile" or with whitespace-padded variants returns the empty
sequence. -/
theorem C10_case_sensitive :
    (∃ p ∈ projects, p.category = "mobile") ∧
    filteredProjects projects "Mobile" = [] ∧
    filteredProjects projects " mobile" = [] ∧
    filteredProjects projects "mobile " = [] := by
  decide
